import Mathlib

/-
Verification of the android-build-server orchestration core against its
natural-language specification.  The JavaScript sources (server.js,
lib/auth.js, lib/builder.js, lib/queue.js) are shallowly embedded below:
pure helpers become Lean functions, the HTTP handlers and timers become an
explicit step function on a server-state record, and the single-threaded
JavaScript event loop is modelled by making each synchronous handler
section one atomic step.
-/

namespace ABS

/-! ## Association-list maps

JavaScript `Map` objects (`builds`, `userBuildCounts`, `apiKeys`,
`apiKeyToPubkey`) are embedded as association lists with `Map` semantics:
`aset` replaces in place (unique keys), `aerase` removes the binding. -/

/-- Lookup in an association list, mirroring `Map.get`. -/
def alook {α : Type} : List (String × α) → String → Option α
  | [], _ => none
  | (k, v) :: rest, key => if k = key then some v else alook rest key

/-- Insert or replace a binding in place, mirroring `Map.set`. -/
def aset {α : Type} : List (String × α) → String → α → List (String × α)
  | [], key, v => [(key, v)]
  | (k, w) :: rest, key, v =>
    if k = key then (key, v) :: rest else (k, w) :: aset rest key v

/-- Remove a binding, mirroring `Map.delete`. -/
def aerase {α : Type} (l : List (String × α)) (key : String) : List (String × α) :=
  l.filter (fun p => !(p.1 == key))

theorem alook_aset_self {α : Type} (l : List (String × α)) (k : String) (v : α) :
    alook (aset l k v) k = some v := by
  induction l with
  | nil => simp [aset, alook]
  | cons hd tl ih =>
    by_cases h : hd.1 = k
    · simp [aset, alook, h]
    · simp [aset, alook, h, ih]

theorem alook_aset_ne {α : Type} (l : List (String × α)) (k k2 : String) (v : α)
    (h : k ≠ k2) : alook (aset l k v) k2 = alook l k2 := by
  induction l with
  | nil => simp [aset, alook, h]
  | cons hd tl ih =>
    by_cases h1 : hd.1 = k
    · simp [aset, alook, h1, h]
    · by_cases h2 : hd.1 = k2
      · simp [aset, alook, h1, h2, Ne.symm h]
      · simp [aset, alook, h1, h2, ih]

theorem alook_aerase_self {α : Type} (l : List (String × α)) (k : String) :
    alook (aerase l k) k = none := by
  induction l with
  | nil => simp [aerase, alook]
  | cons hd tl ih =>
    by_cases h : hd.1 = k
    · simpa [aerase, alook, h] using ih
    · simpa [aerase, alook, h] using ih

/-! ## POSIX path model

`builder.js` joins each archive entry name onto the build directory with
`path.join` and re-normalizes with `path.normalize` (POSIX, the service
runs in a Linux container).  We model absolute-path join-and-normalize
over segment lists: `.` and empty segments vanish and `..` pops the last
segment (dropped at the root, as POSIX normalize does for absolute
paths). -/

/-- Split a character list on a separator character. -/
def splitOnChar (sep : Char) : List Char → List (List Char)
  | [] => [[]]
  | c :: rest =>
    let r := splitOnChar sep rest
    if c = sep then [] :: r
    else
      match r with
      | s :: ss => (c :: s) :: ss
      | [] => [[c]]

/-- Normalize path segments with an explicit stack: `..` pops, `.` and
empty segments disappear. -/
def normSegs : List (List Char) → List (List Char) → List (List Char)
  | stack, [] => stack
  | stack, seg :: rest =>
    if seg = [] ∨ seg = ['.'] then normSegs stack rest
    else if seg = ['.', '.'] then normSegs stack.dropLast rest
    else normSegs (stack ++ [seg]) rest

/-- Rejoin segments with `/` separators. -/
def joinSegs : List (List Char) → List Char
  | [] => []
  | [s] => s
  | s :: rest => s ++ '/' :: joinSegs rest

/-- Model of `path.normalize(path.join(base, p))` for an absolute `base`,
as performed on every archive entry in `buildAPK`. -/
def pathJoinAbs (base p : List Char) : List Char :=
  '/' :: joinSegs (normSegs [] (splitOnChar '/' (base ++ '/' :: p)))

/-- Boolean list-prefix test, modelling `String.prototype.startsWith`. -/
def prefixOfCL : List Char → List Char → Bool
  | [], _ => true
  | _ :: _, [] => false
  | a :: as, b :: bs => a == b && prefixOfCL as bs

/-! ## Archive model and entry validation (builder.js lines 36-61) -/

/-- One entry of the uploaded ZIP as `adm-zip` presents it: name, the
directory flag, the external attribute bits, and the declared
uncompressed size. -/
structure ZipEntry where
  entryName : String
  isDir : Bool
  attr : Nat
  size : Nat
deriving DecidableEq

/-- The uploaded archive: the leading raw bytes (for the magic-byte check
in server.js) and the entry list (read by `buildAPK`). -/
structure ZipFile where
  bytes : List Nat
  entries : List ZipEntry
deriving DecidableEq

/-- Model of `isValidZip` (server.js lines 243-249): at least four bytes,
`PK` then `03|05` then `04|06`. -/
def isValidZip : List Nat → Bool
  | b0 :: b1 :: b2 :: b3 :: _ =>
    b0 == 0x50 && b1 == 0x4B && (b2 == 0x03 || b2 == 0x05) &&
      (b3 == 0x04 || b3 == 0x06)
  | _ => false

/-- The three entry-level rejection reasons of `buildAPK`. -/
inductive EntryErr where
  | pathTraversal (name : String)
  | symlink (name : String)
  | tooLarge (name : String)
deriving DecidableEq

/-- Validation of one entry, mirroring the loop body in builder.js lines
40-58.  The symlink test `attr & 0x4000` is written arithmetically as
bit 14 of `attr`; the size cap is 50 MB. -/
def checkEntry (buildDir : String) (e : ZipEntry) : Option EntryErr :=
  let np := pathJoinAbs buildDir.toList e.entryName.toList
  if !(prefixOfCL (buildDir.toList ++ ['/']) np || np == buildDir.toList) then
    some (EntryErr.pathTraversal e.entryName)
  else if e.isDir = false ∧ (e.attr / 16384) % 2 = 1 then
    some (EntryErr.symlink e.entryName)
  else if e.size > 50 * 1024 * 1024 then
    some (EntryErr.tooLarge e.entryName)
  else
    none

/-- Validation of all entries before extraction: the first failing entry
aborts with its error, exactly as the `for` loop throws. -/
def validateEntries (buildDir : String) : List ZipEntry → Option EntryErr
  | [] => none
  | e :: rest =>
    match checkEntry buildDir e with
    | some err => some err
    | none => validateEntries buildDir rest

/-- The thrown error message for an entry failure (builder.js lines
46-56, size suffix elided). -/
def entryErrMsg : EntryErr → String
  | EntryErr.pathTraversal n => "Path traversal detected in ZIP: " ++ n
  | EntryErr.symlink n => "Symbolic links not allowed in ZIP: " ++ n
  | EntryErr.tooLarge n => "File too large in ZIP: " ++ n

/-! ## Config validation (server.js lines 288-319) -/

/-- ASCII letter, as matched by `[a-z]` under the `/i` flag. -/
def letterCI (c : Char) : Bool :=
  ('a' ≤ c && c ≤ 'z') || ('A' ≤ c && c ≤ 'Z')

/-- Character class `[a-z0-9_]` under `/i`. -/
def pkgChar (c : Char) : Bool :=
  letterCI c || c.isDigit || c == '_'

/-- One dot-separated segment of the package-id grammar:
`[a-z][a-z0-9_]*` under `/i`. -/
def pkgSeg : List Char → Bool
  | [] => false
  | c :: rest => letterCI c && rest.all pkgChar

/-- Model of the test against `/^[a-z][a-z0-9_]*(\.[a-z][a-z0-9_]*)+$/i`:
at least two dot-separated segments, each matching `pkgSeg`. -/
def packageIdValid (s : String) : Bool :=
  let segs := splitOnChar '.' s.toList
  decide (2 ≤ segs.length) && segs.all pkgSeg

/-- Hexadecimal digit, as matched by `[0-9A-Fa-f]`. -/
def hexDigit (c : Char) : Bool :=
  c.isDigit || ('a' ≤ c && c ≤ 'f') || ('A' ≤ c && c ≤ 'F')

/-- Model of the test against `/^#[0-9A-Fa-f]{6}$/`. -/
def primaryColorValid (s : String) : Bool :=
  match s.toList with
  | '#' :: rest => rest.length == 6 && rest.all hexDigit
  | _ => false

/-- The characters removed from `appName` by the sanitizing `replace`
(shell metacharacters and control characters). -/
def stripChars : List Char := "<>:\"/\\|?*`$();&\n\r\t".toList

/-- Whitespace trimming at both ends, modelling `String.prototype.trim`. -/
def trimCL (l : List Char) : List Char :=
  ((l.dropWhile Char.isWhitespace).reverse.dropWhile Char.isWhitespace).reverse

/-- Model of the appName sanitization chain
`slice(0, 50)` then `replace(/[...]/g, '')` then `trim()`. -/
def sanitizeAppName (s : String) : String :=
  ⟨trimCL ((s.toList.take 50).filter (fun c => !stripChars.contains c))⟩

/-- ASCII lowercasing of a string, modelling `toLowerCase`. -/
def lowerStr (s : String) : String :=
  ⟨s.toList.map Char.toLower⟩

/-- The submitted config as parsed from the request JSON.  `none` stands
for an absent (or non-string) field. -/
structure RawConfig where
  appName : Option String
  packageId : Option String
  buildType : Option String
  primaryColor : Option String
deriving DecidableEq

/-- A validated, normalized config snapshot as stored on the record. -/
structure Config where
  appName : String
  packageId : String
  buildType : Option String
  primaryColor : Option String
deriving DecidableEq

/-- The field-specific validation errors of the submit handler. -/
inductive ConfigErr where
  | appNameRequired
  | badPackageId
  | badBuildType
  | badPrimaryColor
  | appNameInvalidChars
deriving DecidableEq

deriving instance DecidableEq for Except

/-- JavaScript truthiness for an optional string field: present and
non-empty.  The handler guards the buildType and primaryColor checks by
`config.buildType && ...` and `config.primaryColor && ...`. -/
def truthy : Option String → Bool
  | none => false
  | some s => s ≠ ""

/-- Model of the config validation and normalization sequence of the
submit handler (server.js lines 288-319), in source order: appName
required (falsy or non-string rejected), packageId grammar, buildType
enumeration (only when truthy), primaryColor format (only when truthy),
then appName sanitization with emptiness re-check, then packageId
lowercasing. -/
def validateConfig (r : RawConfig) : Except ConfigErr Config :=
  match r.appName with
  | none => Except.error ConfigErr.appNameRequired
  | some an =>
    if an = "" then Except.error ConfigErr.appNameRequired
    else
      match r.packageId with
      | none => Except.error ConfigErr.badPackageId
      | some pid =>
        if !packageIdValid pid then Except.error ConfigErr.badPackageId
        else if truthy r.buildType &&
            !(r.buildType == some "debug" || r.buildType == some "release") then
          Except.error ConfigErr.badBuildType
        else if truthy r.primaryColor &&
            !(match r.primaryColor with
              | some pc => primaryColorValid pc
              | none => false) then
          Except.error ConfigErr.badPrimaryColor
        else
          if sanitizeAppName an = "" then Except.error ConfigErr.appNameInvalidChars
          else Except.ok ⟨sanitizeAppName an, lowerStr pid, r.buildType, r.primaryColor⟩

/-! ## Build records and the server state machine (server.js)

Every synchronous section of a handler (no intervening `await` that
matters for the shared maps) is one atomic step of `step`, matching the
single-threaded event loop: submit admission, cancel, the dispatch prefix
of a queued task (which immediately runs `buildAPK`'s synchronous prefix
setting `status = 'building'`), task settlement, and the cleanup sweep. -/

/-- The five record statuses. -/
inductive Status where
  | queued
  | building
  | complete
  | failed
  | cancelled
deriving DecidableEq

/-- Terminal statuses, the list tested by the cleanup interval. -/
def isTerminal : Status → Bool
  | Status.complete => true
  | Status.failed => true
  | Status.cancelled => true
  | _ => false

/-- The build record kept in the `builds` map. -/
structure BuildRec where
  userId : String
  status : Status
  progress : Nat
  createdAt : Nat
  error : Option String
  config : Config
deriving DecidableEq

/-- Update the record under a key in place; absent keys are untouched
(mirrors mutating the object returned by `builds.get`). -/
def bupd : List (String × BuildRec) → String → (BuildRec → BuildRec) →
    List (String × BuildRec)
  | [], _, _ => []
  | (k, v) :: rest, key, f =>
    if k = key then (k, f v) :: rest else (k, v) :: bupd rest key f

theorem alook_bupd_self (l : List (String × BuildRec)) (k : String)
    (f : BuildRec → BuildRec) : alook (bupd l k f) k = (alook l k).map f := by
  induction l with
  | nil => simp [bupd, alook]
  | cons hd tl ih =>
    obtain ⟨k1, v1⟩ := hd
    by_cases h : k1 = k
    · simp [bupd, alook, h]
    · simpa [bupd, alook, h] using ih

theorem alook_bupd_ne (l : List (String × BuildRec)) (k k2 : String)
    (f : BuildRec → BuildRec) (h : k ≠ k2) :
    alook (bupd l k f) k2 = alook l k2 := by
  induction l with
  | nil => simp [bupd, alook]
  | cons hd tl ih =>
    obtain ⟨k1, v1⟩ := hd
    by_cases h1 : k1 = k
    · simp [bupd, alook, h1, Ne.symm h, h]
    · by_cases h2 : k1 = k2
      · simp [bupd, alook, h1, h2, Ne.symm h]
      · simpa [bupd, alook, h1, h2] using ih

/-- Whole server state: the `builds` registry, the `userBuildCounts` map,
the scheduler (pending tasks and in-flight tasks, each carrying the
submitting user captured by the task closure), and the configured limits
(`MAX_BUILDS_PER_USER` default 3, `MAX_QUEUE_SIZE` default 50,
`MAX_CONCURRENT_BUILDS` default 2). -/
structure SrvState where
  builds : List (String × BuildRec)
  counts : List (String × Nat)
  pending : List (String × String)
  runningL : List (String × String)
  maxPerUser : Nat
  maxQ : Nat
  maxC : Nat
deriving DecidableEq

/-- Initial server state for the given limits. -/
def initState (k q mc : Nat) : SrvState :=
  ⟨[], [], [], [], k, q, mc⟩

/-- HTTP-level responses of the embedded handlers. -/
inductive Response where
  | noFile
  | invalidZip
  | queueFull (queueSize : Nat)
  | quotaExceeded (activeBuilds : Nat)
  | configErr (e : ConfigErr)
  | ok (buildId : String)
  | notFound
  | forbidden
  | cancelOk
  | cannotCancel (s : Status)
  | dispatched (buildId : String)
  | noop
deriving DecidableEq

/-- Result of the `checkBuildOwnership` middleware (server.js lines
125-145): 404 when unknown, admin passes, otherwise the caller must own
the record. -/
inductive OwnResult where
  | notFound
  | denied
  | allowed (b : BuildRec)
deriving DecidableEq

/-- Model of `checkBuildOwnership`. -/
def checkBuildOwnership (builds : List (String × BuildRec)) (buildId : String)
    (userId : String) (isAdmin : Bool) : OwnResult :=
  match alook builds buildId with
  | none => OwnResult.notFound
  | some b =>
    if isAdmin then OwnResult.allowed b
    else if b.userId ≠ userId then OwnResult.denied
    else OwnResult.allowed b

/-- Decrement of a user's active-build count as written in both the
cancel handler and the task `finally` block: read with fallback 1,
delete when at most 1, else store one less. -/
def decCount (counts : List (String × Nat)) (u : String) : List (String × Nat) :=
  let cur := (alook counts u).getD 1
  if cur ≤ 1 then aerase counts u else aset counts u (cur - 1)

/-- Actions on the server state. -/
inductive Act where
  | submit (userId : String) (isAdmin : Bool) (file : Option ZipFile)
      (cfg : RawConfig) (newId : String) (now : Nat)
  | cancel (userId : String) (isAdmin : Bool) (buildId : String)
  | dispatch
  | finishOk (buildId : String)
  | finishFail (buildId : String) (msg : String)
  | sweep (now : Nat)

/-- Retention TTL of the cleanup interval (one hour in milliseconds). -/
def cleanupMaxAge : Nat := 60 * 60 * 1000

/-- One atomic step of the service.

* `submit` follows the handler order of server.js lines 252-368: missing
  file, magic bytes, queue-depth cap, per-user cap (reporting the current
  count), config validation, then record creation + count increment +
  enqueue.  The admin flag is deliberately unused here: the handler
  applies the same quota to every `req.userId`, including `'admin'`.
* `cancel` is the DELETE handler (lines 431-453): it flips a queued
  record to `cancelled` and decrements the owner's count, but neither
  deletes the record nor removes the pending task.
* `dispatch` models `BuildQueue.process` running a pending task, whose
  synchronous prefix in `buildAPK` unconditionally sets
  `status = 'building'`, `progress = 5`.
* `finishOk`/`finishFail` settle an in-flight task (the end of `buildAPK`
  plus the `finally` count decrement).
* `sweep` is the 30-minute cleanup interval (lines 481-497): it deletes
  records in a terminal state whose age since `createdAt` exceeds the
  TTL. -/
def step (st : SrvState) : Act → SrvState × Response
  | Act.submit u _adm file rc id now =>
    match file with
    | none => (st, Response.noFile)
    | some f =>
      if isValidZip f.bytes then
        if st.maxQ ≤ st.pending.length then
          (st, Response.queueFull st.pending.length)
        else
          let cnt := (alook st.counts u).getD 0
          if st.maxPerUser ≤ cnt then (st, Response.quotaExceeded cnt)
          else
            match validateConfig rc with
            | Except.error e => (st, Response.configErr e)
            | Except.ok c =>
              ({ st with
                  builds := aset st.builds id ⟨u, Status.queued, 0, now, none, c⟩,
                  counts := aset st.counts u (cnt + 1),
                  pending := st.pending ++ [(id, u)] },
                Response.ok id)
      else (st, Response.invalidZip)
  | Act.cancel caller adm id =>
    match checkBuildOwnership st.builds id caller adm with
    | OwnResult.notFound => (st, Response.notFound)
    | OwnResult.denied => (st, Response.forbidden)
    | OwnResult.allowed b =>
      if b.status = Status.queued then
        ({ st with
            builds := bupd st.builds id (fun bb => { bb with status := Status.cancelled }),
            counts := decCount st.counts b.userId },
          Response.cancelOk)
      else (st, Response.cannotCancel b.status)
  | Act.dispatch =>
    if st.runningL.length < st.maxC then
      match st.pending with
      | [] => (st, Response.noop)
      | (id, u) :: rest =>
        ({ st with
            pending := rest,
            runningL := st.runningL ++ [(id, u)],
            builds := bupd st.builds id
              (fun b => { b with status := Status.building, progress := 5 }) },
          Response.dispatched id)
    else (st, Response.noop)
  | Act.finishOk id =>
    match st.runningL.find? (fun p => p.1 == id) with
    | none => (st, Response.noop)
    | some p =>
      ({ st with
          builds := bupd st.builds id
            (fun b => { b with status := Status.complete, progress := 100 }),
          runningL := st.runningL.filter (fun q => !(q.1 == id)),
          counts := decCount st.counts p.2 },
        Response.noop)
  | Act.finishFail id msg =>
    match st.runningL.find? (fun p => p.1 == id) with
    | none => (st, Response.noop)
    | some p =>
      ({ st with
          builds := bupd st.builds id
            (fun b => { b with status := Status.failed, error := some msg }),
          runningL := st.runningL.filter (fun q => !(q.1 == id)),
          counts := decCount st.counts p.2 },
        Response.noop)
  | Act.sweep now =>
    ({ st with
        builds := st.builds.filter
          (fun p => !(decide (cleanupMaxAge < now - p.2.createdAt) &&
            isTerminal p.2.status)) },
      Response.noop)

/-- Run a list of actions from a state, discarding responses. -/
def runActs (st : SrvState) (acts : List Act) : SrvState :=
  acts.foldl (fun s a => (step s a).1) st

/-- Number of a user's records currently in a non-terminal state. -/
def nonTerminalCount (st : SrvState) (u : String) : Nat :=
  (st.builds.filter (fun p => p.2.userId == u && !isTerminal p.2.status)).length

/-! ## The buildAPK pipeline as an event trace (builder.js lines 13-256)

The external toolchain stages (npm, Capacitor, Gradle) are the opaque
collaborator; their joint outcome is an input.  The executor's own
filesystem and record effects are recorded as an ordered event list. -/

/-- Observable effects of one `buildAPK` run, in program order. -/
inductive BEvent where
  | setBuilding
  | mkdirs
  | extractZip
  | runPipeline
  | copyArtifact
  | statArtifact
  | rmBuildDir
  | setComplete
  | scheduleCleanup
  | setFailed
deriving DecidableEq

/-- Outcome of the stage sequence and the subsequent filesystem calls of
the try block.  `ok` is full success; `failAt` is any throw before
`fs.copyFile` (a failed stage, the timeout, or a missing APK), at some
progress point with a message; the remaining constructors are throws
from the filesystem calls at or after the copy (builder.js lines
218-227): `failCopy` is `fs.copyFile` throwing partway with `written`
bytes already landed at the retention path, `failStat` is `fs.stat`
throwing after a completed copy, and `failRm` is `fs.rm(buildDir)`
throwing after copy and stat. -/
inductive StageOutcome where
  | ok (artifactSize : Nat)
  | failAt (progAt : Nat) (msg : String)
  | failCopy (written : Nat) (msg : String)
  | failStat (artifactSize : Nat) (msg : String)
  | failRm (artifactSize : Nat) (msg : String)
deriving DecidableEq

/-- Final record fields and retention-directory content after one
`buildAPK` run. -/
structure BOutcome where
  status : Status
  progress : Nat
  error : Option String
  apkPath : Option String
  apkSize : Option Nat
  retentionFileSize : Option Nat
deriving DecidableEq

/-- The retention path for a build id (`/tmp/output/<id>.apk`). -/
def outputPathOf (buildId : String) : String :=
  "/tmp/output/" ++ buildId ++ ".apk"

/-- The private working directory for a build id (`/tmp/builds/<id>`). -/
def buildDirOf (buildId : String) : String :=
  "/tmp/builds/" ++ buildId

/-- Model of one `buildAPK` run.  Program order from the source: set
`building`/5, create directories, validate every entry (throwing before
any extraction), extract, run the stage pipeline, copy the artifact to
the retention path, stat it (progress 90 up to here), set progress 95,
remove the working directory, then mark the record complete (progress
100, apkPath, apkSize) and schedule the delayed artifact deletion.  The
catch block records the failure on the record first and removes only the
working directory after: it never touches the retention path, so a throw
at or after `fs.copyFile` leaves the partial or complete artifact file
there (`retentionFileSize` stays set), while `apkPath`/`apkSize` are
assigned only on the success path and stay unset on every failure. -/
def buildAPK (buildId : String) (entries : List ZipEntry) (stage : StageOutcome) :
    BOutcome × List BEvent :=
  match validateEntries (buildDirOf buildId) entries with
  | some err =>
    (⟨Status.failed, 10, some (entryErrMsg err), none, none, none⟩,
      [BEvent.setBuilding, BEvent.mkdirs, BEvent.setFailed, BEvent.rmBuildDir])
  | none =>
    match stage with
    | StageOutcome.failAt progAt msg =>
      (⟨Status.failed, progAt, some msg, none, none, none⟩,
        [BEvent.setBuilding, BEvent.mkdirs, BEvent.extractZip, BEvent.runPipeline,
          BEvent.setFailed, BEvent.rmBuildDir])
    | StageOutcome.failCopy written msg =>
      (⟨Status.failed, 90, some msg, none, none, some written⟩,
        [BEvent.setBuilding, BEvent.mkdirs, BEvent.extractZip, BEvent.runPipeline,
          BEvent.copyArtifact, BEvent.setFailed, BEvent.rmBuildDir])
    | StageOutcome.failStat sz msg =>
      (⟨Status.failed, 90, some msg, none, none, some sz⟩,
        [BEvent.setBuilding, BEvent.mkdirs, BEvent.extractZip, BEvent.runPipeline,
          BEvent.copyArtifact, BEvent.setFailed, BEvent.rmBuildDir])
    | StageOutcome.failRm sz msg =>
      (⟨Status.failed, 95, some msg, none, none, some sz⟩,
        [BEvent.setBuilding, BEvent.mkdirs, BEvent.extractZip, BEvent.runPipeline,
          BEvent.copyArtifact, BEvent.statArtifact, BEvent.setFailed, BEvent.rmBuildDir])
    | StageOutcome.ok sz =>
      (⟨Status.complete, 100, none, some (outputPathOf buildId), some sz, some sz⟩,
        [BEvent.setBuilding, BEvent.mkdirs, BEvent.extractZip, BEvent.runPipeline,
          BEvent.copyArtifact, BEvent.statArtifact, BEvent.rmBuildDir,
          BEvent.setComplete, BEvent.scheduleCleanup])

/-! ## The BuildQueue scheduler (lib/queue.js)

The class holds a pending array and an in-flight counter; `add` appends
and triggers `process`, which dispatches the head whenever
`running < maxConcurrent`, and every task completion decrements and
re-triggers `process`.  The model keeps enqueue and dispatch histories to
state the FIFO property. -/

/-- Scheduler state with enqueue and dispatch histories. -/
structure QState where
  maxC : Nat
  running : Nat
  pendingQ : List Nat
  enqueuedH : List Nat
  dispatchedH : List Nat

/-- Reachable scheduler states: start empty; `add` appends a task;
`dispatch` moves the head of the pending list in flight when a slot is
free; `complete` ends an in-flight task. -/
inductive QReach : QState → Prop where
  | init (mc : Nat) : QReach ⟨mc, 0, [], [], []⟩
  | add (s : QState) (t : Nat) : QReach s →
      QReach { s with pendingQ := s.pendingQ ++ [t], enqueuedH := s.enqueuedH ++ [t] }
  | dispatch (s : QState) (t : Nat) (rest : List Nat) : QReach s →
      s.running < s.maxC → s.pendingQ = t :: rest →
      QReach { s with
        running := s.running + 1,
        pendingQ := rest,
        dispatchedH := s.dispatchedH ++ [t] }
  | complete (s : QState) : QReach s → 0 < s.running →
      QReach { s with running := s.running - 1 }

/-! ## API-key management (lib/auth.js)

`randomBytes` is modelled by passing the freshly generated key as an
argument; timestamps likewise. -/

/-- Stored credential info (`{ apiKey, createdAt, lastUsed }`). -/
structure KeyInfo where
  apiKey : String
  createdAt : Nat
  lastUsed : Nat
deriving DecidableEq

/-- The two persistent maps of auth.js. -/
structure AuthState where
  apiKeys : List (String × KeyInfo)
  apiKeyToPubkey : List (String × String)
deriving DecidableEq

/-- Model of `getOrCreateApiKey` (auth.js lines 132-155): return the
existing credential unchanged (touching `lastUsed`) or mint the supplied
fresh key and install it in both maps. -/
def getOrCreateApiKey (st : AuthState) (pubkey freshKey : String) (now : Nat) :
    AuthState × String × Bool :=
  match alook st.apiKeys pubkey with
  | some info =>
    ({ st with apiKeys := aset st.apiKeys pubkey { info with lastUsed := now } },
      info.apiKey, false)
  | none =>
    ({ apiKeys := aset st.apiKeys pubkey ⟨freshKey, now, now⟩,
       apiKeyToPubkey := aset st.apiKeyToPubkey freshKey pubkey },
      freshKey, true)

/-- Model of `validateApiKey` (auth.js lines 160-173): resolve the token
through the reverse map. -/
def validateApiKey (st : AuthState) (apiKey : String) : Option String :=
  alook st.apiKeyToPubkey apiKey

/-- Model of `revokeApiKey` (auth.js lines 178-188): drop both map
entries for the pubkey's credential. -/
def revokeApiKey (st : AuthState) (pubkey : String) : AuthState × Bool :=
  match alook st.apiKeys pubkey with
  | some info =>
    ({ apiKeys := aerase st.apiKeys pubkey,
       apiKeyToPubkey := aerase st.apiKeyToPubkey info.apiKey }, true)
  | none => (st, false)

/-! ## Concrete fixtures used by several claims -/

/-- A well-formed tiny archive: valid ZIP magic, one harmless entry. -/
def zipOk : ZipFile := ⟨[0x50, 0x4B, 3, 4], [⟨"dist/index.html", false, 0, 100⟩]⟩

/-- A valid raw config. -/
def cfgOk : RawConfig := ⟨some "Test App", some "com.example.test", none, none⟩

/-- The validated snapshot of `cfgOk`. -/
def cfgOkVal : Config := ⟨"Test App", "com.example.test", none, none⟩

/-- An archive with valid magic bytes whose single entry escapes the
extraction root (the spec scenario `"../../etc/passwd"`). -/
def zipEvil : ZipFile := ⟨[0x50, 0x4B, 3, 4], [⟨"../../etc/passwd", false, 0, 100⟩]⟩

/-! ## C1 — hostile archive entries -/

/-- C1 counterexample: submitting an archive whose only entry resolves
outside the extraction root is NOT rejected — the handler only checks
the magic bytes — so the response is success and a BuildRecord is
created, contradicting the claim that the submission is rejected with a
validation error and no record is created. -/
theorem C1_counterexample :
    (step (initState 3 50 2) (Act.submit "alice" false (some zipEvil) cfgOk "b1" 0)).2 =
      Response.ok "b1" ∧
    alook ((step (initState 3 50 2)
        (Act.submit "alice" false (some zipEvil) cfgOk "b1" 0)).1).builds "b1" =
      some ⟨"alice", Status.queued, 0, 0, none, cfgOkVal⟩ := by
  decide

/-- C1 amended: the per-entry checks (path escape, symbolic link, size
cap) run in the executor, not at submission: a well-formed submission is
accepted and creates a queued BuildRecord regardless of entry contents,
and when any entry fails validation the executor marks the build failed
with the entry error, extracts nothing, and leaves nothing in the
retention path. -/
theorem C1_amended :
    (∀ (st : SrvState) (u : String) (adm : Bool) (f : ZipFile) (rc : RawConfig)
      (id : String) (now : Nat) (c : Config),
      isValidZip f.bytes = true → st.pending.length < st.maxQ →
      (alook st.counts u).getD 0 < st.maxPerUser →
      validateConfig rc = Except.ok c →
      (step st (Act.submit u adm (some f) rc id now)).2 = Response.ok id ∧
      alook ((step st (Act.submit u adm (some f) rc id now)).1).builds id =
        some ⟨u, Status.queued, 0, now, none, c⟩) ∧
    (∀ (id : String) (entries : List ZipEntry) (stage : StageOutcome) (e : EntryErr),
      validateEntries (buildDirOf id) entries = some e →
      (buildAPK id entries stage).1.status = Status.failed ∧
      (buildAPK id entries stage).1.error = some (entryErrMsg e) ∧
      (buildAPK id entries stage).1.retentionFileSize = none ∧
      (buildAPK id entries stage).1.apkPath = none ∧
      BEvent.extractZip ∉ (buildAPK id entries stage).2) := by
  constructor
  · intro st u adm f rc id now c h1 h2 h3 h4
    have hq : ¬ (st.maxQ ≤ st.pending.length) := Nat.not_le.mpr h2
    have hk : ¬ (st.maxPerUser ≤ (alook st.counts u).getD 0) := Nat.not_le.mpr h3
    simp [step, h1, hq, hk, h4, alook_aset_self]
  · intro id entries stage e h
    simp [buildAPK, h]

/-- C1 witness: the spec's own scenario entry, checked end to end. -/
theorem C1_witness :
    ((step (initState 3 50 2) (Act.submit "alice" false (some zipOk) cfgOk "w1" 7)).2 =
        Response.ok "w1" ∧
      alook ((step (initState 3 50 2)
          (Act.submit "alice" false (some zipOk) cfgOk "w1" 7)).1).builds "w1" =
        some ⟨"alice", Status.queued, 0, 7, none, cfgOkVal⟩) ∧
    ((buildAPK "b1" zipEvil.entries (StageOutcome.ok 5000)).1.status = Status.failed ∧
      (buildAPK "b1" zipEvil.entries (StageOutcome.ok 5000)).1.error =
        some (entryErrMsg (EntryErr.pathTraversal "../../etc/passwd")) ∧
      (buildAPK "b1" zipEvil.entries (StageOutcome.ok 5000)).1.retentionFileSize = none ∧
      (buildAPK "b1" zipEvil.entries (StageOutcome.ok 5000)).1.apkPath = none ∧
      BEvent.extractZip ∉ (buildAPK "b1" zipEvil.entries (StageOutcome.ok 5000)).2) :=
  ⟨C1_amended.1 (initState 3 50 2) "alice" false zipOk cfgOk "w1" 7 cfgOkVal
      (by decide) (by decide) (by decide) (by decide),
    C1_amended.2 "b1" zipEvil.entries (StageOutcome.ok 5000)
      (EntryErr.pathTraversal "../../etc/passwd") (by decide)⟩

/-! ## C2 — per-identity non-terminal cap -/

/-- Trace exhibiting the cancel-revival breach of the per-identity cap:
with one worker slot occupied by another user's build, user u1 queues
three builds, cancels all three, queues three more (the counter was
decremented by the cancels), and then a slot frees and the queue
dispatches the first cancelled-but-still-enqueued task. -/
def c2Trace : List Act :=
  [ Act.submit "u2" false (some zipOk) cfgOk "bX" 0,
    Act.dispatch,
    Act.submit "u1" false (some zipOk) cfgOk "b1" 0,
    Act.submit "u1" false (some zipOk) cfgOk "b2" 0,
    Act.submit "u1" false (some zipOk) cfgOk "b3" 0,
    Act.submit "u1" false (some zipOk) cfgOk "b7" 0,
    Act.cancel "u1" false "b1",
    Act.cancel "u1" false "b2",
    Act.cancel "u1" false "b3",
    Act.submit "u1" false (some zipOk) cfgOk "b4" 0,
    Act.submit "u1" false (some zipOk) cfgOk "b5" 0,
    Act.submit "u1" false (some zipOk) cfgOk "b6" 0,
    Act.finishOk "bX",
    Act.dispatch ]

/-- State after the first `n` steps of `c2Trace`, from the default
per-user cap K = 3 (with queue bound 50 and one worker). -/
def c2After (n : Nat) : SrvState := runActs (initState 3 50 1) (c2Trace.take n)

/-- C2: evaluation of the code at the failing trace.  The admission
check itself behaves as claimed — the fourth submission while the
counter is at the cap is rejected before any record exists and reports
the count 3 — but after cancelling queued builds their tasks remain in
the queue and are later dispatched back to `building`, so user u1 ends
with four records in a non-terminal state, exceeding K = 3. -/
theorem C2_bug_trace :
    (c2After 14).maxPerUser = 3 ∧
    (step (c2After 5) (Act.submit "u1" false (some zipOk) cfgOk "b7" 0)).2 =
      Response.quotaExceeded 3 ∧
    alook (c2After 6).builds "b7" = none ∧
    (alook (c2After 14).builds "b1").map BuildRec.status = some Status.building ∧
    nonTerminalCount (c2After 14) "u1" = 4 := by
  decide

/-! ## C3 — terminal statuses and cancellation -/

/-- Trace in which user u1's build bY is cancelled while queued (the
single worker slot is held by u2's build bX) and the queue later
dispatches bY's still-enqueued task. -/
def c3Trace : List Act :=
  [ Act.submit "u2" false (some zipOk) cfgOk "bX" 0,
    Act.dispatch,
    Act.submit "u1" false (some zipOk) cfgOk "bY" 0,
    Act.cancel "u1" false "bY",
    Act.finishOk "bX",
    Act.dispatch ]

/-- State after the first `n` steps of `c3Trace`. -/
def c3After (n : Nat) : SrvState := runActs (initState 3 50 1) (c3Trace.take n)

/-- C3: evaluation of the code at the failing trace.  Cancel while
building is indeed rejected, but a record cancelled while queued is NOT
terminal in practice: its task was never removed from the queue, and on
dispatch `buildAPK` unconditionally sets the record back to `building`. -/
theorem C3_bug_trace :
    (step (c3After 4) (Act.cancel "u2" false "bX")).2 =
      Response.cannotCancel Status.building ∧
    (step (c3After 3) (Act.cancel "u1" false "bY")).2 = Response.cancelOk ∧
    (alook (c3After 4).builds "bY").map BuildRec.status = some Status.cancelled ∧
    (alook (c3After 6).builds "bY").map BuildRec.status = some Status.building := by
  decide

/-! ## C4 — scheduler bound and FIFO order -/

/-- C4: at every reachable scheduler state the number of in-flight tasks
never exceeds maxConcurrent, and the dispatch history followed by the
still-pending list equals the enqueue history — dispatch order is
exactly enqueue order (strict FIFO), so a task enqueued earlier is
dispatched no later than one enqueued after it. -/
theorem C4_queue_bounded_fifo (s : QState) (h : QReach s) :
    s.running ≤ s.maxC ∧ s.dispatchedH ++ s.pendingQ = s.enqueuedH := by
  induction h with
  | init mc => simp
  | add s t hr ih =>
    refine ⟨ih.1, ?_⟩
    simp only []
    rw [← List.append_assoc, ih.2]
  | dispatch s t rest hr hlt hpend ih =>
    refine ⟨hlt, ?_⟩
    have h2 := ih.2
    rw [hpend] at h2
    simpa [List.append_assoc] using h2
  | complete s hr hpos ih =>
    exact ⟨Nat.le_trans (Nat.sub_le _ _) ih.1, ih.2⟩

/-- The scheduler state reached by enqueuing tasks 7 and 8 and
dispatching once with two slots. -/
def c4Reached : QState := ⟨2, 1, [8], [7, 8], [7]⟩

/-- C4 witness: the invariant evaluated at a concrete reachable state. -/
theorem C4_witness :
    c4Reached.running ≤ c4Reached.maxC ∧
    c4Reached.dispatchedH ++ c4Reached.pendingQ = c4Reached.enqueuedH := by
  refine C4_queue_bounded_fifo c4Reached ?_
  have h0 := QReach.init 2
  have h1 := QReach.add _ 7 h0
  have h2 := QReach.add _ 8 h1
  have h3 := QReach.dispatch _ 7 [8] h2 (by decide) (by simp)
  simpa [c4Reached] using h3

/-! ## C5 — credential idempotence and revocation -/

/-- C5: repeating the exchange for a pubkey returns the identical token
with `isNew = false`; after a revoke the old token no longer validates
and a subsequent exchange mints the freshly generated token with
`isNew = true`. -/
theorem C5_apiKey_lifecycle (st : AuthState) (p f1 f2 : String) (t1 t2 : Nat) :
    ((getOrCreateApiKey (getOrCreateApiKey st p f1 t1).1 p f2 t2).2.1 =
        (getOrCreateApiKey st p f1 t1).2.1 ∧
      (getOrCreateApiKey (getOrCreateApiKey st p f1 t1).1 p f2 t2).2.2 = false) ∧
    ((revokeApiKey (getOrCreateApiKey st p f1 t1).1 p).2 = true ∧
      validateApiKey (revokeApiKey (getOrCreateApiKey st p f1 t1).1 p).1
        (getOrCreateApiKey st p f1 t1).2.1 = none ∧
      (getOrCreateApiKey (revokeApiKey (getOrCreateApiKey st p f1 t1).1 p).1 p f2 t2).2.1 = f2 ∧
      (getOrCreateApiKey (revokeApiKey (getOrCreateApiKey st p f1 t1).1 p).1 p f2 t2).2.2 = true) := by
  cases hcase : alook st.apiKeys p with
  | some info =>
    simp [getOrCreateApiKey, revokeApiKey, validateApiKey, hcase,
      alook_aset_self, alook_aerase_self]
  | none =>
    simp [getOrCreateApiKey, revokeApiKey, validateApiKey, hcase,
      alook_aset_self, alook_aerase_self]

/-! ## C6 — config validation and normalization -/

/-- C6 counterexample: a config whose `buildType` field is present but
the empty string — neither `"debug"` nor `"release"` — is accepted, not
rejected: the handler guards the check with JavaScript truthiness
(`config.buildType && ...`), so an empty string skips it. -/
theorem C6_counterexample :
    (⟨some "Test App", some "com.example.test", some "", none⟩ : RawConfig).buildType =
      some "" ∧
    (some "" : Option String) ≠ some "debug" ∧
    (some "" : Option String) ≠ some "release" ∧
    validateConfig ⟨some "Test App", some "com.example.test", some "", none⟩ =
      Except.ok ⟨"Test App", "com.example.test", some "", none⟩ := by
  decide

/-- C6 amended: before any BuildRecord is created the config is
validated field by field — a dot-less packageId yields an immediate
field-specific error with no record; and every accepted config has a
grammar-valid packageId stored lowercased, a sanitized non-empty
appName, buildType in the two-value enumeration whenever present and
non-empty, and a well-formed primaryColor whenever present and
non-empty. -/
theorem C6_validation :
    ((step (initState 3 50 2)
        (Act.submit "u" false (some zipOk) ⟨some "Test App", some "NotAPackage", none, none⟩
          "bN" 0)) =
      (initState 3 50 2, Response.configErr ConfigErr.badPackageId)) ∧
    (∀ (r : RawConfig) (c : Config), validateConfig r = Except.ok c →
      (∃ pid, r.packageId = some pid ∧ packageIdValid pid = true ∧
        c.packageId = lowerStr pid) ∧
      (∃ an, r.appName = some an ∧ c.appName = sanitizeAppName an ∧ c.appName ≠ "") ∧
      (truthy r.buildType = true →
        r.buildType = some "debug" ∨ r.buildType = some "release") ∧
      (truthy r.primaryColor = true →
        ∃ pc, r.primaryColor = some pc ∧ primaryColorValid pc = true)) := by
  constructor
  · decide
  · intro r c h
    unfold validateConfig at h
    split at h
    · exact absurd h (by simp)
    · rename_i an han
      split at h
      · exact absurd h (by simp)
      · rename_i he
        split at h
        · exact absurd h (by simp)
        · rename_i pid hpid
          split at h
          · exact absurd h (by simp)
          · rename_i hv
            split at h
            · exact absurd h (by simp)
            · rename_i hbt
              split at h
              · exact absurd h (by simp)
              · rename_i hpc
                split at h
                · exact absurd h (by simp)
                · rename_i hempty
                  injection h with h2
                  subst h2
                  refine ⟨⟨pid, hpid, by simpa using hv, rfl⟩,
                    ⟨an, han, rfl, hempty⟩, ?_, ?_⟩
                  · intro ht
                    exact or_iff_not_imp_left.mpr (by simpa [ht] using hbt)
                  · intro ht
                    rcases hc : r.primaryColor with _ | pc
                    · rw [hc] at ht
                      simp [truthy] at ht
                    · rw [hc] at ht hpc
                      exact ⟨pc, rfl, by simpa [ht] using hpc⟩

/-- C6 witness: the amended validation facts at a concrete valid config
with mixed case and a color. -/
theorem C6_witness :
    (∃ pid, (⟨some " Test<App> ", some "com.Example.Test", some "release", some "#FF5733"⟩ :
        RawConfig).packageId = some pid ∧ packageIdValid pid = true ∧
      (⟨"TestApp", "com.example.test", some "release", some "#FF5733"⟩ : Config).packageId =
        lowerStr pid) ∧
    (∃ an, (⟨some " Test<App> ", some "com.Example.Test", some "release", some "#FF5733"⟩ :
        RawConfig).appName = some an ∧
      (⟨"TestApp", "com.example.test", some "release", some "#FF5733"⟩ : Config).appName =
        sanitizeAppName an ∧
      (⟨"TestApp", "com.example.test", some "release", some "#FF5733"⟩ : Config).appName ≠ "") ∧
    (truthy (some "release") = true →
      (some "release" : Option String) = some "debug" ∨
        (some "release" : Option String) = some "release") ∧
    (truthy (some "#FF5733") = true →
      ∃ pc, (some "#FF5733" : Option String) = some pc ∧ primaryColorValid pc = true) := by
  have h := C6_validation.2
    ⟨some " Test<App> ", some "com.Example.Test", some "release", some "#FF5733"⟩
    ⟨"TestApp", "com.example.test", some "release", some "#FF5733"⟩ (by decide)
  simpa using h

/-! ## C7 — success path ordering and artifact size -/

/-- C7 counterexample: on a concrete successful run both the
directory-removal and the completion-marking events occur, but the
record is NOT set to complete before the working directory is deleted:
the code removes the build directory first and only then marks the
record complete, the reverse of the claimed order. -/
theorem C7_counterexample :
    BEvent.setComplete ∈ (buildAPK "b1" [] (StageOutcome.ok 5000)).2 ∧
    BEvent.rmBuildDir ∈ (buildAPK "b1" [] (StageOutcome.ok 5000)).2 ∧
    ¬ ((buildAPK "b1" [] (StageOutcome.ok 5000)).2.indexOf BEvent.setComplete <
        (buildAPK "b1" [] (StageOutcome.ok 5000)).2.indexOf BEvent.rmBuildDir) := by
  decide

/-- C7 amended: on every successful build the artifact is copied into
the retention path named by the build id before the working directory is
removed (never the reverse), the recorded apkSize equals the size of the
copied retention file, and the record ends complete with progress 100 —
but the working directory is deleted just before (not after) the record
is marked complete. -/
theorem C7_success_path (id : String) (entries : List ZipEntry) (sz : Nat)
    (h : validateEntries (buildDirOf id) entries = none) :
    (buildAPK id entries (StageOutcome.ok sz)).1.status = Status.complete ∧
    (buildAPK id entries (StageOutcome.ok sz)).1.progress = 100 ∧
    (buildAPK id entries (StageOutcome.ok sz)).1.apkPath = some (outputPathOf id) ∧
    (buildAPK id entries (StageOutcome.ok sz)).1.apkSize = some sz ∧
    (buildAPK id entries (StageOutcome.ok sz)).1.retentionFileSize = some sz ∧
    (buildAPK id entries (StageOutcome.ok sz)).2.indexOf BEvent.copyArtifact <
      (buildAPK id entries (StageOutcome.ok sz)).2.indexOf BEvent.rmBuildDir ∧
    (buildAPK id entries (StageOutcome.ok sz)).2.indexOf BEvent.rmBuildDir <
      (buildAPK id entries (StageOutcome.ok sz)).2.indexOf BEvent.setComplete := by
  simp [buildAPK, h]

/-- C7 witness: the success path on a concrete entry list. -/
theorem C7_witness :
    (buildAPK "b7" zipOk.entries (StageOutcome.ok 4242)).1.status = Status.complete ∧
    (buildAPK "b7" zipOk.entries (StageOutcome.ok 4242)).1.progress = 100 ∧
    (buildAPK "b7" zipOk.entries (StageOutcome.ok 4242)).1.apkPath =
      some (outputPathOf "b7") ∧
    (buildAPK "b7" zipOk.entries (StageOutcome.ok 4242)).1.apkSize = some 4242 ∧
    (buildAPK "b7" zipOk.entries (StageOutcome.ok 4242)).1.retentionFileSize = some 4242 ∧
    (buildAPK "b7" zipOk.entries (StageOutcome.ok 4242)).2.indexOf BEvent.copyArtifact <
      (buildAPK "b7" zipOk.entries (StageOutcome.ok 4242)).2.indexOf BEvent.rmBuildDir ∧
    (buildAPK "b7" zipOk.entries (StageOutcome.ok 4242)).2.indexOf BEvent.rmBuildDir <
      (buildAPK "b7" zipOk.entries (StageOutcome.ok 4242)).2.indexOf BEvent.setComplete :=
  C7_success_path "b7" zipOk.entries 4242 (by decide)

/-! ## C8 — failure path ordering and cleanliness -/

/-- C8 counterexample: on a concrete failed run both events occur, but
the working directory is NOT cleaned up before the failure is recorded:
the catch block records status failed with the error first and removes
the directory after, the reverse of the claimed order. -/
theorem C8_counterexample :
    BEvent.setFailed ∈ (buildAPK "b1" [] (StageOutcome.failAt 60 "gradle failed")).2 ∧
    BEvent.rmBuildDir ∈ (buildAPK "b1" [] (StageOutcome.failAt 60 "gradle failed")).2 ∧
    ¬ ((buildAPK "b1" [] (StageOutcome.failAt 60 "gradle failed")).2.indexOf
          BEvent.rmBuildDir <
        (buildAPK "b1" [] (StageOutcome.failAt 60 "gradle failed")).2.indexOf
          BEvent.setFailed) := by
  decide

/-- C8 amended: on every failed or timed-out run the failure is recorded
first — the record is set to failed with the captured error — and only
then is the working directory removed (recording precedes cleanup, not
the reverse), and the failed record never references an artifact
(apkPath and apkSize stay unset).  A failure before the copy step leaves
nothing in the retention path, but a throw at or after `fs.copyFile` —
a partial copy, a failed stat, or a failed working-directory removal —
leaves the partial or complete artifact file in the retention path: the
catch block removes only the working directory and never the retention
file. -/
theorem C8_failure_path :
    (∀ (id : String) (entries : List ZipEntry) (progAt : Nat) (msg : String),
      validateEntries (buildDirOf id) entries = none →
      (buildAPK id entries (StageOutcome.failAt progAt msg)).1.status = Status.failed ∧
      (buildAPK id entries (StageOutcome.failAt progAt msg)).1.error = some msg ∧
      (buildAPK id entries (StageOutcome.failAt progAt msg)).1.apkPath = none ∧
      (buildAPK id entries (StageOutcome.failAt progAt msg)).1.apkSize = none ∧
      (buildAPK id entries (StageOutcome.failAt progAt msg)).1.retentionFileSize = none ∧
      BEvent.copyArtifact ∉ (buildAPK id entries (StageOutcome.failAt progAt msg)).2 ∧
      (buildAPK id entries (StageOutcome.failAt progAt msg)).2.indexOf BEvent.setFailed <
        (buildAPK id entries (StageOutcome.failAt progAt msg)).2.indexOf BEvent.rmBuildDir) ∧
    (∀ (id : String) (entries : List ZipEntry) (written : Nat) (msg : String),
      validateEntries (buildDirOf id) entries = none →
      (buildAPK id entries (StageOutcome.failCopy written msg)).1.status = Status.failed ∧
      (buildAPK id entries (StageOutcome.failCopy written msg)).1.error = some msg ∧
      (buildAPK id entries (StageOutcome.failCopy written msg)).1.apkPath = none ∧
      (buildAPK id entries (StageOutcome.failCopy written msg)).1.apkSize = none ∧
      (buildAPK id entries (StageOutcome.failCopy written msg)).1.retentionFileSize =
        some written ∧
      (buildAPK id entries (StageOutcome.failCopy written msg)).2.indexOf BEvent.setFailed <
        (buildAPK id entries (StageOutcome.failCopy written msg)).2.indexOf BEvent.rmBuildDir) ∧
    (∀ (id : String) (entries : List ZipEntry) (sz : Nat) (msg : String),
      validateEntries (buildDirOf id) entries = none →
      (buildAPK id entries (StageOutcome.failStat sz msg)).1.status = Status.failed ∧
      (buildAPK id entries (StageOutcome.failStat sz msg)).1.error = some msg ∧
      (buildAPK id entries (StageOutcome.failStat sz msg)).1.apkPath = none ∧
      (buildAPK id entries (StageOutcome.failStat sz msg)).1.apkSize = none ∧
      (buildAPK id entries (StageOutcome.failStat sz msg)).1.retentionFileSize = some sz ∧
      (buildAPK id entries (StageOutcome.failStat sz msg)).2.indexOf BEvent.setFailed <
        (buildAPK id entries (StageOutcome.failStat sz msg)).2.indexOf BEvent.rmBuildDir) ∧
    (∀ (id : String) (entries : List ZipEntry) (sz : Nat) (msg : String),
      validateEntries (buildDirOf id) entries = none →
      (buildAPK id entries (StageOutcome.failRm sz msg)).1.status = Status.failed ∧
      (buildAPK id entries (StageOutcome.failRm sz msg)).1.error = some msg ∧
      (buildAPK id entries (StageOutcome.failRm sz msg)).1.apkPath = none ∧
      (buildAPK id entries (StageOutcome.failRm sz msg)).1.apkSize = none ∧
      (buildAPK id entries (StageOutcome.failRm sz msg)).1.retentionFileSize = some sz ∧
      (buildAPK id entries (StageOutcome.failRm sz msg)).2.indexOf BEvent.setFailed <
        (buildAPK id entries (StageOutcome.failRm sz msg)).2.indexOf BEvent.rmBuildDir) := by
  refine ⟨?_, ?_, ?_, ?_⟩
  · intro id entries progAt msg h
    simp [buildAPK, h]
  · intro id entries written msg h
    simp [buildAPK, h]
  · intro id entries sz msg h
    simp [buildAPK, h]
  · intro id entries sz msg h
    simp [buildAPK, h]

/-- C8 witness: a pre-copy failure leaving a clean retention path and a
failed working-directory removal leaving the complete artifact there, on
a concrete entry list. -/
theorem C8_witness :
    ((buildAPK "b8" zipOk.entries (StageOutcome.failAt 40 "npx cap add android failed")).1.status =
        Status.failed ∧
      (buildAPK "b8" zipOk.entries (StageOutcome.failAt 40 "npx cap add android failed")).1.error =
        some "npx cap add android failed" ∧
      (buildAPK "b8" zipOk.entries
          (StageOutcome.failAt 40 "npx cap add android failed")).1.apkPath = none ∧
      (buildAPK "b8" zipOk.entries
          (StageOutcome.failAt 40 "npx cap add android failed")).1.apkSize = none ∧
      (buildAPK "b8" zipOk.entries
          (StageOutcome.failAt 40 "npx cap add android failed")).1.retentionFileSize = none ∧
      BEvent.copyArtifact ∉
        (buildAPK "b8" zipOk.entries (StageOutcome.failAt 40 "npx cap add android failed")).2 ∧
      (buildAPK "b8" zipOk.entries
          (StageOutcome.failAt 40 "npx cap add android failed")).2.indexOf BEvent.setFailed <
        (buildAPK "b8" zipOk.entries
          (StageOutcome.failAt 40 "npx cap add android failed")).2.indexOf BEvent.rmBuildDir) ∧
    ((buildAPK "b8" zipOk.entries (StageOutcome.failRm 4242 "EACCES rm")).1.status =
        Status.failed ∧
      (buildAPK "b8" zipOk.entries (StageOutcome.failRm 4242 "EACCES rm")).1.error =
        some "EACCES rm" ∧
      (buildAPK "b8" zipOk.entries (StageOutcome.failRm 4242 "EACCES rm")).1.apkPath = none ∧
      (buildAPK "b8" zipOk.entries (StageOutcome.failRm 4242 "EACCES rm")).1.apkSize = none ∧
      (buildAPK "b8" zipOk.entries (StageOutcome.failRm 4242 "EACCES rm")).1.retentionFileSize =
        some 4242 ∧
      (buildAPK "b8" zipOk.entries (StageOutcome.failRm 4242 "EACCES rm")).2.indexOf
          BEvent.setFailed <
        (buildAPK "b8" zipOk.entries (StageOutcome.failRm 4242 "EACCES rm")).2.indexOf
          BEvent.rmBuildDir) :=
  ⟨C8_failure_path.1 "b8" zipOk.entries 40 "npx cap add android failed" (by decide),
    C8_failure_path.2.2.2 "b8" zipOk.entries 4242 "EACCES rm" (by decide)⟩

/-! ## C9 — record destruction -/

/-- A queued record owned by u1, used by the C9 theorems. -/
def recQ : BuildRec := ⟨"u1", Status.queued, 0, 0, none, cfgOkVal⟩

/-- A server state holding the queued record `recQ` under id `"b"`. -/
def stC9 : SrvState := ⟨[("b", recQ)], [("u1", 1)], [("b", "u1")], [], 3, 50, 2⟩

/-- C9 counterexample: a successful cancel of a queued build does NOT
destroy its BuildRecord — the DELETE handler only flips the status to
cancelled and the record stays in the registry. -/
theorem C9_counterexample :
    (step stC9 (Act.cancel "u1" false "b")).2 = Response.cancelOk ∧
    alook ((step stC9 (Act.cancel "u1" false "b")).1).builds "b" =
      some { recQ with status := Status.cancelled } := by
  decide

/-- C9 amended: a successful cancel marks the record cancelled and
leaves it in the registry; records are destroyed only by the periodic
sweeper, which removes exactly those in a terminal state (complete,
failed or cancelled) whose age measured from creation exceeds the
one-hour TTL. -/
theorem C9_destruction :
    (∀ (st : SrvState) (id caller : String) (adm : Bool) (b : BuildRec),
      alook st.builds id = some b → b.status = Status.queued →
      (adm = true ∨ b.userId = caller) →
      (step st (Act.cancel caller adm id)).2 = Response.cancelOk ∧
      alook ((step st (Act.cancel caller adm id)).1).builds id =
        some { b with status := Status.cancelled }) ∧
    (∀ (st : SrvState) (now : Nat) (id : String) (b : BuildRec),
      (id, b) ∈ ((step st (Act.sweep now)).1).builds ↔
        (id, b) ∈ st.builds ∧
          ¬ (cleanupMaxAge < now - b.createdAt ∧ isTerminal b.status = true)) := by
  constructor
  · intro st id caller adm b hfind hq hown
    have hcheck : checkBuildOwnership st.builds id caller adm = OwnResult.allowed b := by
      rcases hown with hadm | howner
      · simp [checkBuildOwnership, hfind, hadm]
      · simp [checkBuildOwnership, hfind, howner]
    simp [step, hcheck, hq, alook_bupd_self, hfind]
  · intro st now id b
    simp [step, List.mem_filter]
    intro _
    constructor
    · intro hkeep hage
      rcases hkeep with hk | hk
      · exact absurd hage (by omega)
      · exact hk
    · intro himp
      by_cases hage : cleanupMaxAge < now - b.createdAt
      · exact Or.inr (himp hage)
      · exact Or.inl (by omega)

/-- C9 witness: the cancel and sweep behaviour at concrete inputs. -/
theorem C9_witness :
    ((step stC9 (Act.cancel "admin" true "b")).2 = Response.cancelOk ∧
      alook ((step stC9 (Act.cancel "admin" true "b")).1).builds "b" =
        some { recQ with status := Status.cancelled }) ∧
    (("b", recQ) ∈ ((step stC9 (Act.sweep 9999999)).1).builds ↔
      ("b", recQ) ∈ stC9.builds ∧
        ¬ (cleanupMaxAge < 9999999 - recQ.createdAt ∧ isTerminal recQ.status = true)) :=
  ⟨C9_destruction.1 stC9 "b" "admin" true recQ (by decide) (by decide) (Or.inl rfl),
    C9_destruction.2 stC9 9999999 "b" recQ⟩

/-! ## C10 — admin privileges -/

/-- A server state in which the identity `admin` already has three
active builds counted against it (the default cap). -/
def stAdminQuota : SrvState := ⟨[], [("admin", 3)], [], [], 3, 50, 2⟩

/-- C10 counterexample: an admin submission IS subject to the
per-identity cap — with three active builds counted under the identity
`admin`, the next admin submission is rejected by the quota check, which
contradicts the claim that admin submissions bypass the cap K. -/
theorem C10_counterexample :
    (step stAdminQuota (Act.submit "admin" true (some zipOk) cfgOk "bA" 0)) =
      (stAdminQuota, Response.quotaExceeded 3) := by
  decide

/-- C10 amended: an admin caller bypasses ownership gating — it can read
or mutate (cancel) any record regardless of owner — but its submissions
are NOT exempt from the per-identity cap: the same quota check applies
to the identity `admin`. -/
theorem C10_admin_powers :
    (∀ (builds : List (String × BuildRec)) (id uid : String) (b : BuildRec),
      alook builds id = some b →
      checkBuildOwnership builds id uid true = OwnResult.allowed b) ∧
    (∀ (st : SrvState) (id caller : String) (b : BuildRec),
      alook st.builds id = some b → b.status = Status.queued →
      (step st (Act.cancel caller true id)).2 = Response.cancelOk) ∧
    (∀ (st : SrvState) (f : ZipFile) (rc : RawConfig) (id : String) (now : Nat),
      isValidZip f.bytes = true → st.pending.length < st.maxQ →
      st.maxPerUser ≤ (alook st.counts "admin").getD 0 →
      step st (Act.submit "admin" true (some f) rc id now) =
        (st, Response.quotaExceeded ((alook st.counts "admin").getD 0))) := by
  refine ⟨?_, ?_, ?_⟩
  · intro builds id uid b hfind
    simp [checkBuildOwnership, hfind]
  · intro st id caller b hfind hq
    have hcheck : checkBuildOwnership st.builds id caller true = OwnResult.allowed b := by
      simp [checkBuildOwnership, hfind]
    simp [step, hcheck, hq]
  · intro st f rc id now h1 h2 h3
    have hq : ¬ (st.maxQ ≤ st.pending.length) := Nat.not_le.mpr h2
    simp [step, h1, hq, h3]

/-- C10 witness: the three amended facts at concrete inputs. -/
theorem C10_witness :
    checkBuildOwnership [("b", recQ)] "b" "someone-else" true = OwnResult.allowed recQ ∧
    (step stC9 (Act.cancel "not-owner" true "b")).2 = Response.cancelOk ∧
    step stAdminQuota (Act.submit "admin" true (some zipOk) cfgOk "bW" 0) =
      (stAdminQuota, Response.quotaExceeded ((alook stAdminQuota.counts "admin").getD 0)) :=
  ⟨C10_admin_powers.1 [("b", recQ)] "b" "someone-else" recQ (by decide),
    C10_admin_powers.2.1 stC9 "b" "not-owner" recQ (by decide) (by decide),
    C10_admin_powers.2.2 stAdminQuota zipOk cfgOk "bW" 0 (by decide) (by decide) (by decide)⟩

end ABS
